import Mathlib

/-!
Shallow embedding of `src/app.py` (a Dash dashboard over the 2014 US cities
dataset) and proofs of the specification claims about it.

Modelling conventions:
* A pandas row of the cities table becomes a `CityRecord`; a dataframe becomes
  a `List CityRecord` in row order.  `df.head n` is `List.take n`, `df.tail n`
  is `pdTail`, and boolean-mask filtering `df[df['name'].isin(sel)]` is
  `List.filter`.
* The CSV is fetched remotely at startup, so its contents are not in the
  repository; every operation is therefore parameterised by the dataset list,
  exactly as the Python functions close over the module-global `cities_df`.
* Plotly figures are modelled by structures holding the fields the source
  passes to `px.bar` / `px.scatter_geo` and the subsequent `update_layout` /
  `update_traces` calls.  Column-name arguments (`lat="lat"`, `size='pop'`,
  `color='name'`, ...) are kept as string fields.
* Python truthiness on the callback inputs: the dropdown and checklist values
  are lists (empty list is falsy); the slider value is an optional integer
  (`None` and `0` are falsy).
-/

/-- One row of the cities dataframe: columns `name`, `pop`, `lat`, `lon`
(coordinates are modelled as rationals; no claim computes with them). -/
structure CityRecord where
  name : String
  pop : Nat
  lat : Rat
  lon : Rat
deriving DecidableEq, Repr

/-- Model of `df.tail n` for a dataframe in row order: the last `n` rows
(all rows when the frame is shorter). -/
def pdTail (df : List CityRecord) (n : Nat) : List CityRecord :=
  df.drop (df.length - n)

/-- Result of `px.bar(df, x='name', y='pop', title=..., labels=...,
color_discrete_sequence=[color])` followed by the `update_layout` and
`update_traces` calls in `create_bar_chart` (src/app.py lines 69-90). -/
structure BarFigure where
  data_frame : List CityRecord
  x : List String
  y : List Nat
  title : String
  color_discrete_sequence : List (Option String)
  xaxis_title : String
  yaxis_title : String
  showlegend : Bool
  hovertemplate : String
deriving DecidableEq, Repr

/-- `create_bar_chart(df, title, color)` from src/app.py lines 69-90.
The hover template literal is `<b>%\x7bx\x7d</b><br>Population: %\x7by:,\x7d<extra></extra>`
exactly as in the source. -/
def create_bar_chart (df : List CityRecord) (title : String) (color : Option String) :
    BarFigure :=
  { data_frame := df
  , x := df.map (fun r => r.name)
  , y := df.map (fun r => r.pop)
  , title := title
  , color_discrete_sequence := [color]
  , xaxis_title := "City Name"
  , yaxis_title := "Population"
  , showlegend := false
  , hovertemplate := "<b>%\x7bx\x7d</b><br>Population: %\x7by:,\x7d<extra></extra>" }

/-- Result of `px.scatter_geo(df, lat="lat", lon="lon", size='pop',
scope='usa', color='name', hover_name='name', ..., title=title)` in
`create_geo_map` (src/app.py lines 93-115).  Column-selector arguments are
kept as the string field names the source passes. -/
structure MapFigure where
  data_frame : List CityRecord
  lat_col : String
  lon_col : String
  size_col : String
  scope : String
  color_col : String
  hover_name_col : String
  title : String
deriving DecidableEq, Repr

/-- `create_geo_map(df, title)` from src/app.py lines 93-115. -/
def create_geo_map (df : List CityRecord) (title : String) : MapFigure :=
  { data_frame := df
  , lat_col := "lat"
  , lon_col := "lon"
  , size_col := "pop"
  , scope := "usa"
  , color_col := "name"
  , hover_name_col := "name"
  , title := title }

/-- The `(filtered_dataframe, chart_type, title, color)` tuple built by the
`filters` table in `filter_by_checkboxes` (src/app.py lines 25-56); the
all-`None` tuple returned for an unknown key is modelled as `Option.none`
at the call site. -/
structure FilterConfig where
  data : List CityRecord
  type : String
  title : String
  color : Option String
deriving DecidableEq, Repr

/-- `filter_by_checkboxes(option)` from src/app.py lines 15-66: a static
lookup from checkbox value to a pre-sliced view of `cities_df` plus chart
kind, title and color; unknown keys yield the absent result. -/
def filter_by_checkboxes (cities_df : List CityRecord) (option : String) :
    Option FilterConfig :=
  if option = "top5" then
    some ⟨cities_df.take 5, "bar", "Top 5 Most Populous US Cities (2014)", some "#3498db"⟩
  else if option = "bottom5" then
    some ⟨pdTail cities_df 5, "bar", "Bottom 5 Least Populous US Cities (2014)", some "#e74c3c"⟩
  else if option = "top10" then
    some ⟨cities_df.take 10, "bar", "Top 10 Most Populous US Cities (2014)", some "#2ecc71"⟩
  else if option = "largest10" then
    some ⟨cities_df.take 10, "map",
      "Largest 10 US Cities by Population (2014) - Geographic View", none⟩
  else if option = "smallest10" then
    some ⟨pdTail cities_df 10, "map",
      "Smallest 10 US Cities by Population (2014) - Geographic View", none⟩
  else
    none

/-- Thousands-separator grouping over a reversed digit list: inserts a comma
after every three characters, matching the d3 `,` number format that plotly
applies for the `:,` specifier in `%\x7by:,\x7d`. -/
def groupRev : List Char → List Char
  | a :: b :: c :: rest@(_ :: _) => a :: b :: c :: ',' :: groupRev rest
  | l => l

/-- A natural number printed with thousands separators (d3 `,` format). -/
def commaFormat (n : Nat) : String :=
  String.mk ((groupRev (toString n).data.reverse).reverse)

/-- Plotly hover-template substitution, specialised to the two placeholders
the source template uses: each `%\x7bx\x7d` is replaced by the x value of the
hovered point and each `%\x7by:,\x7d` by its y value formatted with thousands
separators. -/
def hoverSubst (xv : String) (yv : Nat) : List Char → List Char
  | '%' :: '\x7b' :: 'x' :: '\x7d' :: rest => xv.data ++ hoverSubst xv yv rest
  | '%' :: '\x7b' :: 'y' :: ':' :: ',' :: '\x7d' :: rest =>
      (commaFormat yv).data ++ hoverSubst xv yv rest
  | c :: rest => c :: hoverSubst xv yv rest
  | [] => []

/-- Render a hover template for the point with the given x and y values. -/
def renderHovertemplate (t : String) (xv : String) (yv : Nat) : String :=
  String.mk (hoverSubst xv yv t.data)

/-- One chart component handed back to Dash: `dcc.Graph(figure=...)` wrapping
either a bar or a map figure (the constant style dict is not modelled). -/
inductive Graph
  | bar (fig : BarFigure)
  | map (fig : MapFigure)
deriving DecidableEq, Repr

/-- First output of the callback: either the assembled chart list or the
single `html.Div` advisory message shown when nothing is selected. -/
inductive ChartsOut
  | charts (cs : List Graph)
  | message (text : String)
deriving DecidableEq, Repr

/-- The advisory text returned when no chart was assembled
(src/app.py line 265). -/
def noSelectionMessage : String :=
  "Please select at least one option from the checkboxes, choose specific cities from the dropdown, or use the slider."

/-- Python truthiness of the slider callback input: `None` and `0` are falsy,
every other integer is truthy (`if slider_value:` on line 229). -/
def sliderTruthy : Option Nat → Bool
  | none => false
  | some n => n != 0

/-- Rendering of the slider value inside the f-strings of the callback
(`None` prints as the string `None` in Python). -/
def sliderStr : Option Nat → String
  | none => "None"
  | some n => toString n

/-- The body of the checklist loop (src/app.py lines 250-261): resolve the
option; when the dataframe is absent skip it, otherwise dispatch on the chart
type, with the `else: continue` branch for any other type string. -/
def optionChart (cities_df : List CityRecord) (option : String) : Option Graph :=
  match filter_by_checkboxes cities_df option with
  | none => none
  | some cfg =>
    if cfg.type = "bar" then some (Graph.bar (create_bar_chart cfg.data cfg.title cfg.color))
    else if cfg.type = "map" then some (Graph.map (create_geo_map cfg.data cfg.title))
    else none

/-- The `charts` list as built by the sequential appends of `update_charts`
(src/app.py lines 203-261): dropdown block, then slider block, then the
checklist loop. -/
def assembleCharts (cities_df : List CityRecord) (selected_options : List String)
    (selected_cities : List String) (slider_value : Option Nat) : List Graph :=
  let charts : List Graph := []
  let charts :=
    if !selected_cities.isEmpty && decide (selected_cities.length > 0) then
      let custom_df := cities_df.filter (fun r => selected_cities.contains r.name)
      let fig_bar := create_bar_chart custom_df
        ("Selected Cities Population (" ++ toString selected_cities.length ++ " cities)")
        (some "#9b59b6")
      let fig_map := create_geo_map custom_df
        ("Selected Cities - Geographic View (" ++ toString selected_cities.length ++ " cities)")
      charts ++ [Graph.bar fig_bar, Graph.map fig_map]
    else charts
  let charts :=
    if sliderTruthy slider_value then
      let n := slider_value.getD 0
      let top_n_df := cities_df.take n
      let fig_slider_bar := create_bar_chart top_n_df
        ("Top " ++ sliderStr slider_value ++ " Most Populous US Cities (2014)")
        (some "#f39c12")
      let fig_slider_map := create_geo_map top_n_df
        ("Top " ++ sliderStr slider_value ++ " US Cities - Geographic View")
      charts ++ [Graph.bar fig_slider_bar, Graph.map fig_slider_map]
    else charts
  let charts :=
    if !selected_options.isEmpty then
      charts ++ selected_options.filterMap (optionChart cities_df)
    else charts
  charts

/-- `update_charts(selected_options, selected_cities, slider_value)` from
src/app.py lines 201-269: assemble the chart list, and return it together
with the slider status text, or the advisory message when the list is empty. -/
def update_charts (cities_df : List CityRecord) (selected_options : List String)
    (selected_cities : List String) (slider_value : Option Nat) :
    ChartsOut × String :=
  let slider_text := "Displaying top " ++ sliderStr slider_value ++ " cities"
  let charts := assembleCharts cities_df selected_options selected_cities slider_value
  if charts.isEmpty then (ChartsOut.message noSelectionMessage, slider_text)
  else (ChartsOut.charts charts, slider_text)

/-- The dataset ordering established at startup: population descending
 (`cities_df.sort_values(by='pop', ascending=False)` on src/app.py line 12). -/
def popDescRel (a b : CityRecord) : Prop := b.pop ≤ a.pop

instance : DecidableRel popDescRel := fun a b => Nat.decLe b.pop a.pop

instance : IsTotal CityRecord popDescRel :=
  ⟨fun a b => Nat.le_total b.pop a.pop⟩

instance : IsTrans CityRecord popDescRel :=
  ⟨fun _ _ _ hab hbc => Nat.le_trans hbc hab⟩

/-- A dataframe sorted by population descending. -/
def PopSortedDesc (l : List CityRecord) : Prop := l.Sorted popDescRel

instance (l : List CityRecord) : Decidable (PopSortedDesc l) :=
  List.decidableSorted l

/-- The startup sort of the raw CSV rows (src/app.py line 12).  Pandas fixes
only the ordering, not the sorting algorithm; insertion sort realises it. -/
def sortByPopDesc (raw : List CityRecord) : List CityRecord :=
  raw.insertionSort popDescRel

/-- The module-level state of the running app: the global `cities_df`
dataframe, the only state the callback can see. -/
structure AppState where
  cities_df : List CityRecord
deriving DecidableEq, Repr

/-- Process startup (src/app.py lines 11-12): read the CSV and sort it by
population descending, in place, once. -/
def startup (raw : List CityRecord) : AppState :=
  ⟨sortByPopDesc raw⟩

/-- One firing of the Dash callback: the triple of current control values. -/
structure UIEvent where
  selected_options : List String
  selected_cities : List String
  slider_value : Option Nat
deriving DecidableEq, Repr

/-- Handling one callback firing against the module state: `update_charts`
reads `cities_df` and never assigns or mutates it (src/app.py lines 201-269
contain no write to the global), so the state component is returned as-is. -/
def handle_event (s : AppState) (e : UIEvent) : AppState × (ChartsOut × String) :=
  (s, update_charts s.cities_df e.selected_options e.selected_cities e.slider_value)

/-- The module state after a sequence of callback firings. -/
def runEvents (s : AppState) (es : List UIEvent) : AppState :=
  es.foldl (fun st e => (handle_event st e).1) s

/-- Concrete sample rows (2014 populations) used to witness the theorems. -/
def nyRec : CityRecord := ⟨"New York", 8491079, 40, -74⟩

def laRec : CityRecord := ⟨"Los Angeles", 3928864, 34, -118⟩

def chiRec : CityRecord := ⟨"Chicago", 2722389, 41, -87⟩

def houRec : CityRecord := ⟨"Houston", 2239558, 29, -95⟩

def phiRec : CityRecord := ⟨"Philadelphia", 1560297, 39, -75⟩

def phoRec : CityRecord := ⟨"Phoenix", 1537058, 33, -112⟩

/-- A six-row sample dataframe, sorted by population descending. -/
def demoDf : List CityRecord := [nyRec, laRec, chiRec, houRec, phiRec, phoRec]

/-- The charts contributed by the dropdown block of `update_charts`
(src/app.py lines 209-226), in isolation. -/
def dropdownCharts (cities_df : List CityRecord) (selected_cities : List String) :
    List Graph :=
  if !selected_cities.isEmpty && decide (selected_cities.length > 0) then
    let custom_df := cities_df.filter (fun r => selected_cities.contains r.name)
    [Graph.bar (create_bar_chart custom_df
        ("Selected Cities Population (" ++ toString selected_cities.length ++ " cities)")
        (some "#9b59b6")),
     Graph.map (create_geo_map custom_df
        ("Selected Cities - Geographic View (" ++ toString selected_cities.length ++ " cities)"))]
  else []

/-- The charts contributed by the slider block of `update_charts`
(src/app.py lines 229-245), in isolation. -/
def sliderCharts (cities_df : List CityRecord) (slider_value : Option Nat) : List Graph :=
  if sliderTruthy slider_value then
    let n := slider_value.getD 0
    [Graph.bar (create_bar_chart (cities_df.take n)
        ("Top " ++ sliderStr slider_value ++ " Most Populous US Cities (2014)")
        (some "#f39c12")),
     Graph.map (create_geo_map (cities_df.take n)
        ("Top " ++ sliderStr slider_value ++ " US Cities - Geographic View"))]
  else []

/-- The charts contributed by the checklist loop of `update_charts`
(src/app.py lines 248-261): one chart per resolvable key, in list order. -/
def checklistCharts (cities_df : List CityRecord) (selected_options : List String) :
    List Graph :=
  selected_options.filterMap (optionChart cities_df)

/-- The chart list carried by the first callback output (empty for the
advisory message). -/
def chartsOf : ChartsOut → List Graph
  | ChartsOut.charts cs => cs
  | ChartsOut.message _ => []

theorem assembleCharts_decomp (D : List CityRecord) (o c : List String) (s : Option Nat) :
    assembleCharts D o c s =
      dropdownCharts D c ++ sliderCharts D s ++ checklistCharts D o := by
  simp only [assembleCharts, dropdownCharts, sliderCharts, checklistCharts]
  split_ifs <;> simp_all [List.isEmpty_iff]

theorem runEvents_eq_self (s : AppState) (es : List UIEvent) : runEvents s es = s := by
  induction es with
  | nil => rfl
  | cons e es ih => exact ih

theorem sorted_getLast_min :
    ∀ {l : List CityRecord}, PopSortedDesc l →
      ∀ la ∈ l.getLast?, ∀ r ∈ l, la.pop ≤ r.pop := by
  intro l
  induction l with
  | nil => intro _ la hla; simp at hla
  | cons a t ih =>
    intro hs la hla r hr
    cases t with
    | nil =>
      simp at hla hr
      subst hla; subst hr
      exact Nat.le_refl _
    | cons b t' =>
      rw [List.getLast?_cons_cons] at hla
      have hs' : PopSortedDesc (b :: t') := hs.of_cons
      rcases List.mem_cons.mp hr with rfl | hr'
      · have hmem : la ∈ b :: t' := by
          obtain ⟨hne, heq⟩ := List.mem_getLast?_eq_getLast hla
          exact heq ▸ List.getLast_mem hne
        exact List.rel_of_sorted_cons hs la hmem
      · exact ih hs' la hla r hr'

theorem sorted_take_one_max {l : List CityRecord} (hs : PopSortedDesc l) :
    ∀ r ∈ l.take 1, ∀ q ∈ l, q.pop ≤ r.pop := by
  cases l with
  | nil => simp
  | cons a t =>
    intro r hr q hq
    simp at hr
    subst hr
    rcases List.mem_cons.mp hq with rfl | hq'
    · exact Nat.le_refl _
    · exact List.rel_of_sorted_cons hs q hq'

theorem renderHover_barTemplate (xv : String) (yv : Nat) :
    renderHovertemplate "<b>%\x7bx\x7d</b><br>Population: %\x7by:,\x7d<extra></extra>" xv yv =
      "<b>" ++ xv ++ "</b><br>Population: " ++ commaFormat yv ++ "<extra></extra>" := by
  have h : ∀ a b : String, (a ++ b).data = a.data ++ b.data := fun a b => String.data_append a b
  apply String.ext
  simp only [renderHovertemplate, h]
  show hoverSubst xv yv _ = _
  simp [hoverSubst]

/-- C1: for every input state the chart list is assembled in the fixed order
dropdown charts (bar then map), then slider charts (bar then map), then one
chart per resolvable checklist key in the list's iteration order; the output
is the pure image of the input snapshot, hence deterministic. -/
theorem update_charts_chart_order (D : List CityRecord) (o c : List String)
    (s : Option Nat) :
    assembleCharts D o c s =
      dropdownCharts D c ++ sliderCharts D s ++ checklistCharts D o ∧
    ((update_charts D o c s).1 = ChartsOut.message noSelectionMessage ∨
      (update_charts D o c s).1 =
        ChartsOut.charts (dropdownCharts D c ++ sliderCharts D s ++ checklistCharts D o)) := by
  refine ⟨assembleCharts_decomp D o c s, ?_⟩
  rcases h : assembleCharts D o c s with _ | ⟨g, gs⟩
  · left; simp [update_charts, h]
  · right
    rw [← assembleCharts_decomp]
    simp [update_charts, h]

/-- C2 is false as stated: on a population-descending dataset the `bottom5`
slice keeps the source (descending) order, so the least populous city of the
slice comes last, not first — the slice head is its most populous row. -/
theorem bottom5_slice_not_least_populous_first :
    PopSortedDesc demoDf ∧
    filter_by_checkboxes demoDf "bottom5" =
      some ⟨[laRec, chiRec, houRec, phiRec, phoRec], "bar",
        "Bottom 5 Least Populous US Cities (2014)", some "#e74c3c"⟩ ∧
    [laRec, chiRec, houRec, phiRec, phoRec].head? = some laRec ∧
    phoRec ∈ [laRec, chiRec, houRec, phiRec, phoRec] ∧
    phoRec.pop < laRec.pop ∧
    ¬ (∀ r ∈ [laRec, chiRec, houRec, phiRec, phoRec], laRec.pop ≤ r.pop) := by
  decide

/-- C2 (amended): each key in the closed set resolves to exactly the
specified slice of the population-descending dataset with the specified
chart kind and color — top5 = first 5 (bar, blue), bottom5 = last 5 (bar,
red), top10 = first 10 (bar, green), largest10 = first 10 (map, no fixed
color), smallest10 = last 10 (map, no fixed color); the bottom/smallest
slices preserve the descending source order, so their least populous row
comes last. -/
theorem filter_by_checkboxes_slices (D : List CityRecord) (h : PopSortedDesc D) :
    filter_by_checkboxes D "top5" =
      some ⟨D.take 5, "bar", "Top 5 Most Populous US Cities (2014)", some "#3498db"⟩ ∧
    filter_by_checkboxes D "bottom5" =
      some ⟨pdTail D 5, "bar", "Bottom 5 Least Populous US Cities (2014)", some "#e74c3c"⟩ ∧
    filter_by_checkboxes D "top10" =
      some ⟨D.take 10, "bar", "Top 10 Most Populous US Cities (2014)", some "#2ecc71"⟩ ∧
    filter_by_checkboxes D "largest10" =
      some ⟨D.take 10, "map",
        "Largest 10 US Cities by Population (2014) - Geographic View", none⟩ ∧
    filter_by_checkboxes D "smallest10" =
      some ⟨pdTail D 10, "map",
        "Smallest 10 US Cities by Population (2014) - Geographic View", none⟩ ∧
    PopSortedDesc (pdTail D 5) ∧
    PopSortedDesc (pdTail D 10) ∧
    (∀ la ∈ (pdTail D 5).getLast?, ∀ r ∈ pdTail D 5, la.pop ≤ r.pop) ∧
    (∀ la ∈ (pdTail D 10).getLast?, ∀ r ∈ pdTail D 10, la.pop ≤ r.pop) := by
  have h5 : PopSortedDesc (pdTail D 5) :=
    List.Pairwise.sublist (List.drop_sublist _ _) h
  have h10 : PopSortedDesc (pdTail D 10) :=
    List.Pairwise.sublist (List.drop_sublist _ _) h
  exact ⟨rfl, rfl, rfl, rfl, rfl, h5, h10, sorted_getLast_min h5, sorted_getLast_min h10⟩

/-- C7: applying the callback twice to identical control snapshots gives
structurally identical outputs, and the first call leaves the module state
unchanged (the callback never writes `cities_df`). -/
theorem recompose_idempotent (st : AppState) (e : UIEvent) :
    (handle_event st e).1 = st ∧
    handle_event ((handle_event st e).1) e = handle_event st e :=
  ⟨rfl, rfl⟩

/-- C9: the dataset is sorted by population descending once at startup and no
sequence of callback firings changes it, so the sorted-descending invariant
holds before and after every operation. -/
theorem dataset_sorted_immutable (raw : List CityRecord) (es : List UIEvent) :
    runEvents (startup raw) es = startup raw ∧
    PopSortedDesc (startup raw).cities_df ∧
    PopSortedDesc (runEvents (startup raw) es).cities_df := by
  have h1 := runEvents_eq_self (startup raw) es
  have h2 : PopSortedDesc (startup raw).cities_df :=
    List.sorted_insertionSort popDescRel raw
  refine ⟨h1, h2, ?_⟩
  rw [h1]
  exact h2

/-- C10: the callback's second output is the slider status text
`Displaying top ... cities` in both branches, also when the advisory
message replaces the chart list. -/
theorem slider_status_text_both_branches (D : List CityRecord) (o c : List String)
    (s : Option Nat) :
    (update_charts D o c s).2 = "Displaying top " ++ sliderStr s ++ " cities" := by
  simp only [update_charts]
  split <;> rfl

/-- C3: when the dropdown selection is non-empty, the first chart is a bar
chart whose rows are exactly the dataset records whose name is selected, in
their original relative order, without duplicates even if a name is selected
twice, and the next chart is a map over the same subset. -/
theorem dropdown_subset_exact (D : List CityRecord) (o c : List String) (s : Option Nat)
    (h : c ≠ []) :
    assembleCharts D o c s =
      Graph.bar (create_bar_chart (D.filter fun r => c.contains r.name)
          ("Selected Cities Population (" ++ toString c.length ++ " cities)")
          (some "#9b59b6")) ::
        Graph.map (create_geo_map (D.filter fun r => c.contains r.name)
          ("Selected Cities - Geographic View (" ++ toString c.length ++ " cities)")) ::
        (sliderCharts D s ++ checklistCharts D o) ∧
    (∀ r : CityRecord, r ∈ D.filter (fun r => c.contains r.name) ↔ r ∈ D ∧ r.name ∈ c) ∧
    List.Sublist (D.filter fun r => c.contains r.name) D ∧
    (D.Nodup → (D.filter fun r => c.contains r.name).Nodup) ∧
    (∀ nm, nm ∈ c →
      D.filter (fun r => (nm :: c).contains r.name) =
        D.filter (fun r => c.contains r.name)) := by
  have hd : dropdownCharts D c =
      [Graph.bar (create_bar_chart (D.filter fun r => c.contains r.name)
          ("Selected Cities Population (" ++ toString c.length ++ " cities)")
          (some "#9b59b6")),
       Graph.map (create_geo_map (D.filter fun r => c.contains r.name)
          ("Selected Cities - Geographic View (" ++ toString c.length ++ " cities)"))] := by
    cases c with
    | nil => exact absurd rfl h
    | cons a cs => simp [dropdownCharts]
  refine ⟨?_, ?_, List.filter_sublist D, ?_, ?_⟩
  · rw [assembleCharts_decomp, hd]
    rfl
  · intro r
    simp [List.mem_filter, List.contains]
  · intro hn
    exact List.Nodup.sublist (List.filter_sublist D) hn
  · intro nm hnm
    refine List.filter_congr ?_
    intro x _
    by_cases hxa : x.name = nm
    · simp [hxa, hnm, List.contains]
    · simp [hxa, List.contains]

/-- C3 witness at a concrete state: two of the six sample cities selected. -/
theorem dropdown_subset_exact_witness :
    (["New York", "Los Angeles"] : List String) ≠ [] ∧
    (assembleCharts demoDf [] ["New York", "Los Angeles"] none =
      Graph.bar (create_bar_chart
          (demoDf.filter fun r => (["New York", "Los Angeles"] : List String).contains r.name)
          ("Selected Cities Population (" ++ toString (["New York", "Los Angeles"] : List String).length ++ " cities)")
          (some "#9b59b6")) ::
        Graph.map (create_geo_map
          (demoDf.filter fun r => (["New York", "Los Angeles"] : List String).contains r.name)
          ("Selected Cities - Geographic View (" ++ toString (["New York", "Los Angeles"] : List String).length ++ " cities)")) ::
        (sliderCharts demoDf none ++ checklistCharts demoDf []) ∧
    (∀ r : CityRecord,
        r ∈ demoDf.filter (fun r => (["New York", "Los Angeles"] : List String).contains r.name) ↔
          r ∈ demoDf ∧ r.name ∈ (["New York", "Los Angeles"] : List String)) ∧
    List.Sublist (demoDf.filter fun r => (["New York", "Los Angeles"] : List String).contains r.name) demoDf ∧
    (demoDf.Nodup →
      (demoDf.filter fun r => (["New York", "Los Angeles"] : List String).contains r.name).Nodup) ∧
    (∀ nm, nm ∈ (["New York", "Los Angeles"] : List String) →
      demoDf.filter (fun r => (nm :: ["New York", "Los Angeles"]).contains r.name) =
        demoDf.filter (fun r => (["New York", "Los Angeles"] : List String).contains r.name))) :=
  ⟨by decide, dropdown_subset_exact demoDf [] ["New York", "Los Angeles"] none (by decide)⟩

/-- C2 witness: the resolution table evaluated on the sorted six-row sample. -/
theorem filter_by_checkboxes_slices_witness :
    PopSortedDesc demoDf ∧
    (filter_by_checkboxes demoDf "top5" =
      some ⟨demoDf.take 5, "bar", "Top 5 Most Populous US Cities (2014)", some "#3498db"⟩ ∧
    filter_by_checkboxes demoDf "bottom5" =
      some ⟨pdTail demoDf 5, "bar", "Bottom 5 Least Populous US Cities (2014)", some "#e74c3c"⟩ ∧
    filter_by_checkboxes demoDf "top10" =
      some ⟨demoDf.take 10, "bar", "Top 10 Most Populous US Cities (2014)", some "#2ecc71"⟩ ∧
    filter_by_checkboxes demoDf "largest10" =
      some ⟨demoDf.take 10, "map",
        "Largest 10 US Cities by Population (2014) - Geographic View", none⟩ ∧
    filter_by_checkboxes demoDf "smallest10" =
      some ⟨pdTail demoDf 10, "map",
        "Smallest 10 US Cities by Population (2014) - Geographic View", none⟩ ∧
    PopSortedDesc (pdTail demoDf 5) ∧
    PopSortedDesc (pdTail demoDf 10) ∧
    (∀ la ∈ (pdTail demoDf 5).getLast?, ∀ r ∈ pdTail demoDf 5, la.pop ≤ r.pop) ∧
    (∀ la ∈ (pdTail demoDf 10).getLast?, ∀ r ∈ pdTail demoDf 10, la.pop ≤ r.pop)) :=
  ⟨by decide, filter_by_checkboxes_slices demoDf (by decide)⟩

/-- C4: for every truthy slider value in 1..20 the slider block contributes,
right after the dropdown charts, a bar and a map over exactly the first
`slider_value` rows (fewer when the dataset is shorter); the bar is titled
`Top \x7bslider_value\x7d Most Populous US Cities (2014)`, and value 1
selects precisely a most populous city of a sorted dataset. -/
theorem slider_top_n_charts (D : List CityRecord) (o c : List String) (n : Nat)
    (h1 : 1 ≤ n) (h2 : n ≤ 20) :
    assembleCharts D o c (some n) =
      dropdownCharts D c ++
        (Graph.bar (create_bar_chart (D.take n)
            ("Top " ++ toString n ++ " Most Populous US Cities (2014)")
            (some "#f39c12")) ::
         Graph.map (create_geo_map (D.take n)
            ("Top " ++ toString n ++ " US Cities - Geographic View")) ::
         checklistCharts D o) ∧
    (D.take n).length = min n D.length ∧
    (create_bar_chart (D.take n)
        ("Top " ++ toString n ++ " Most Populous US Cities (2014)")
        (some "#f39c12")).data_frame = D.take n ∧
    (create_geo_map (D.take n)
        ("Top " ++ toString n ++ " US Cities - Geographic View")).data_frame = D.take n ∧
    (n = 1 → PopSortedDesc D → ∀ r ∈ D.take 1, ∀ q ∈ D, q.pop ≤ r.pop) := by
  have hn : n ≠ 0 := by omega
  have hs : sliderCharts D (some n) =
      [Graph.bar (create_bar_chart (D.take n)
          ("Top " ++ toString n ++ " Most Populous US Cities (2014)")
          (some "#f39c12")),
       Graph.map (create_geo_map (D.take n)
          ("Top " ++ toString n ++ " US Cities - Geographic View"))] := by
    simp [sliderCharts, sliderTruthy, sliderStr, hn]
  refine ⟨?_, List.length_take n D, rfl, rfl, ?_⟩
  · rw [assembleCharts_decomp, hs, List.append_assoc]
    exact rfl
  · intro _ hsorted
    exact sorted_take_one_max hsorted

/-- C4 witness: slider value 1 on the sorted six-row sample selects exactly
New York, the most populous city, in both slider charts. -/
theorem slider_top_n_charts_witness :
    (1 ≤ 1 ∧ 1 ≤ 20) ∧
    (assembleCharts demoDf [] [] (some 1) =
      dropdownCharts demoDf [] ++
        (Graph.bar (create_bar_chart (demoDf.take 1)
            ("Top " ++ toString 1 ++ " Most Populous US Cities (2014)")
            (some "#f39c12")) ::
         Graph.map (create_geo_map (demoDf.take 1)
            ("Top " ++ toString 1 ++ " US Cities - Geographic View")) ::
         checklistCharts demoDf []) ∧
    (demoDf.take 1).length = min 1 demoDf.length ∧
    (create_bar_chart (demoDf.take 1)
        ("Top " ++ toString 1 ++ " Most Populous US Cities (2014)")
        (some "#f39c12")).data_frame = demoDf.take 1 ∧
    (create_geo_map (demoDf.take 1)
        ("Top " ++ toString 1 ++ " US Cities - Geographic View")).data_frame = demoDf.take 1 ∧
    (1 = 1 → PopSortedDesc demoDf → ∀ r ∈ demoDf.take 1, ∀ q ∈ demoDf, q.pop ≤ r.pop)) :=
  ⟨by decide, slider_top_n_charts demoDf [] [] 1 (by decide) (by decide)⟩

/-- C5 is false as stated: at the default control values (checklist
`['top5']`, dropdown `[]`, slider `10`) the callback returns three charts —
the slider's top-10 bar and map come first, then the top5 bar — not a single
default chart. -/
theorem default_state_not_single_chart :
    (chartsOf (update_charts demoDf ["top5"] [] (some 10)).1).length = 3 ∧
    (chartsOf (update_charts demoDf ["top5"] [] (some 10)).1).head? =
      some (Graph.bar (create_bar_chart (demoDf.take 10)
        "Top 10 Most Populous US Cities (2014)" (some "#f39c12"))) ∧
    ¬ (chartsOf (update_charts demoDf ["top5"] [] (some 10)).1).length = 1 := by
  refine ⟨rfl, ?_, by decide⟩
  rfl

/-- C5 (amended): at the default control values the callback returns the
default chart set — the slider's top-10 bar and map followed by the top5
checklist bar — with the slider status text; and for every state whose
assembled chart list is empty (and only those) it returns the single
no-selection advisory message instead of a chart list. -/
theorem default_chart_set_and_empty_sentinel (D : List CityRecord) (o c : List String)
    (s : Option Nat) :
    update_charts D ["top5"] [] (some 10) =
      (ChartsOut.charts
        [Graph.bar (create_bar_chart (D.take 10)
            "Top 10 Most Populous US Cities (2014)" (some "#f39c12")),
         Graph.map (create_geo_map (D.take 10) "Top 10 US Cities - Geographic View"),
         Graph.bar (create_bar_chart (D.take 5)
            "Top 5 Most Populous US Cities (2014)" (some "#3498db"))],
       "Displaying top 10 cities") ∧
    ((update_charts D o c s).1 = ChartsOut.message noSelectionMessage ↔
      assembleCharts D o c s = []) := by
  constructor
  · rfl
  · rcases hA : assembleCharts D o c s with _ | ⟨g, gs⟩
    · simp [update_charts, hA]
    · simp [update_charts, hA]

/-- C6: a key outside the closed set resolves to the absent tuple (the lookup
is total, it never raises), the loop body yields no chart for it, and the
composed output is unchanged by inserting the unknown key anywhere in the
checklist: it is skipped silently. -/
theorem unknown_key_skipped (D : List CityRecord) (k : String) (pre post c : List String)
    (s : Option Nat)
    (h : k ∉ ["top5", "bottom5", "top10", "largest10", "smallest10"]) :
    filter_by_checkboxes D k = none ∧
    optionChart D k = none ∧
    checklistCharts D (pre ++ k :: post) = checklistCharts D (pre ++ post) ∧
    update_charts D (pre ++ k :: post) c s = update_charts D (pre ++ post) c s := by
  simp only [List.mem_cons, List.not_mem_nil, or_false, not_or] at h
  obtain ⟨h1, h2, h3, h4, h5⟩ := h
  have hf : filter_by_checkboxes D k = none := by
    simp [filter_by_checkboxes, h1, h2, h3, h4, h5]
  have ho : optionChart D k = none := by
    simp [optionChart, hf]
  have hc : checklistCharts D (pre ++ k :: post) = checklistCharts D (pre ++ post) := by
    simp [checklistCharts, List.filterMap_append, List.filterMap_cons, ho]
  have hA : assembleCharts D (pre ++ k :: post) c s = assembleCharts D (pre ++ post) c s := by
    rw [assembleCharts_decomp, assembleCharts_decomp, hc]
  refine ⟨hf, ho, hc, ?_⟩
  simp [update_charts, hA]

/-- C6 witness: the made-up key `extra` is skipped next to `top5`. -/
theorem unknown_key_skipped_witness :
    ("extra" : String) ∉ ["top5", "bottom5", "top10", "largest10", "smallest10"] ∧
    (filter_by_checkboxes demoDf "extra" = none ∧
    optionChart demoDf "extra" = none ∧
    checklistCharts demoDf (["top5"] ++ "extra" :: []) = checklistCharts demoDf (["top5"] ++ []) ∧
    update_charts demoDf (["top5"] ++ "extra" :: []) [] none =
      update_charts demoDf (["top5"] ++ []) [] none) :=
  ⟨by decide, unknown_key_skipped demoDf "extra" ["top5"] [] [] none (by decide)⟩

/-- C8: every bar figure has the city names as x in the given row order, the
populations as y, the single uniform colour sequence `[color]`, and its hover
template renders for each row as the bolded city name, a line break, then
`Population: ` followed by the population with thousands separators. -/
theorem bar_chart_contract (rows : List CityRecord) (title : String) (color : Option String) :
    (create_bar_chart rows title color).x = rows.map (fun r => r.name) ∧
    (create_bar_chart rows title color).y = rows.map (fun r => r.pop) ∧
    (create_bar_chart rows title color).color_discrete_sequence = [color] ∧
    ∀ r ∈ rows,
      renderHovertemplate (create_bar_chart rows title color).hovertemplate r.name r.pop =
        "<b>" ++ r.name ++ "</b><br>Population: " ++ commaFormat r.pop ++ "<extra></extra>" := by
  refine ⟨rfl, rfl, rfl, ?_⟩
  intro r _
  exact renderHover_barTemplate r.name r.pop

/-- C8 witness: the bar figure over the single New York row, whose hover text
shows the population with thousands separators. -/
theorem bar_chart_contract_witness :
    ((create_bar_chart [nyRec] "Population" (some "#3498db")).x =
      [nyRec].map (fun r => r.name) ∧
    (create_bar_chart [nyRec] "Population" (some "#3498db")).y =
      [nyRec].map (fun r => r.pop) ∧
    (create_bar_chart [nyRec] "Population" (some "#3498db")).color_discrete_sequence =
      [some "#3498db"] ∧
    ∀ r ∈ [nyRec],
      renderHovertemplate (create_bar_chart [nyRec] "Population" (some "#3498db")).hovertemplate
          r.name r.pop =
        "<b>" ++ r.name ++ "</b><br>Population: " ++ commaFormat r.pop ++ "<extra></extra>") ∧
    commaFormat nyRec.pop = "8,491,079" :=
  ⟨bar_chart_contract [nyRec] "Population" (some "#3498db"), by
    have h : (toString nyRec.pop : String) = "8491079" := rfl
    simp [commaFormat, h, groupRev]⟩
